import Mathlib

/-!
# PKI bootstrap (`pkg/helpers/pki.go`): a shallow embedding

The Go functions `createCertificate`, `CreatePki`, `certificateToPem`,
`privateKeyToPem`, `pemToCertificate` and `pemToKey` are embedded as Lean
functions.

* A Go slice is an `Option (List α)`; `none` is the `nil` slice.
* A Go pointer that may be `nil` is an `Option`.
* A Go function that may hit a run-time panic returns an `Outcome`.
* The standard-library routines the file calls (`encoding/pem`,
  `crypto/x509`, `crypto/rsa`, `crypto/rand`, `time.Now`) are parameters:
  the deterministic ones are collected in `Lib`, the ones that depend on the
  random source or the clock are collected, per call, in `CallEnv`.
* The goroutines of the `errgroup` are run in the order given by a schedule,
  the list of tasks in their order of completion.
-/

namespace Pki

/-! ## Go values -/

/-- A Go slice; `none` is the `nil` slice. -/
abbrev Slice (α : Type) := Option (List α)

/-- The elements of a slice (`nil` has none). -/
def Slice.toList {α : Type} (s : Slice α) : List α := s.getD []

/-- Go `append(s, x)`: never `nil`. -/
def goAppend {α : Type} (s : Slice α) (x : α) : Slice α := some (s.toList ++ [x])

/-- A byte. -/
abbrev Byte := Fin 256

/-- A byte string (`[]byte`). -/
abbrev Bytes := List Byte

/-- A Go `error` value that is not `nil`, by its message. -/
abbrev Error := String

/-- The type `net.IP`: a byte slice. -/
abbrev IP := List Byte

/-- Result of running Go code that may panic. -/
inductive Outcome (α : Type) where
  | ret (a : α)
  | panic
  deriving DecidableEq, Repr

/-- Sequencing of code that may panic. -/
def Outcome.bind {α β : Type} (x : Outcome α) (f : α → Outcome β) : Outcome β :=
  match x with
  | .ret a => f a
  | .panic => .panic

/-- A Go `(value, error)` result pair from a library call. -/
def goResult {α : Type} (r : Except Error α) : Option α × Option Error :=
  match r with
  | .ok a => (some a, none)
  | .error e => (none, some e)

/-! ## Standard-library types and constants -/

/-- The type `pkix.Name`, restricted to the fields the file sets. -/
structure Name where
  CommonName : String
  Organization : Slice String
  deriving DecidableEq, Repr

/-- Constant `x509.KeyUsageDigitalSignature`. -/
def KeyUsageDigitalSignature : Nat := 1
/-- Constant `x509.KeyUsageKeyEncipherment`. -/
def KeyUsageKeyEncipherment : Nat := 4
/-- Constant `x509.KeyUsageCertSign`. -/
def KeyUsageCertSign : Nat := 32

/-- Constant `x509.ExtKeyUsageServerAuth`. -/
def ExtKeyUsageServerAuth : Nat := 1
/-- Constant `x509.ExtKeyUsageClientAuth`. -/
def ExtKeyUsageClientAuth : Nat := 2

/-- The type `x509.Certificate`, restricted to the fields the file reads or
sets. `SerialNumber` is a `*big.Int`. -/
structure Certificate where
  Raw : Bytes
  SerialNumber : Option Nat
  Subject : Name
  NotBefore : Nat
  NotAfter : Nat
  KeyUsage : Nat
  ExtKeyUsage : Slice Nat
  BasicConstraintsValid : Bool
  IsCA : Bool
  DNSNames : Slice String
  IPAddresses : Slice IP
  deriving DecidableEq, Repr

/-- The type `rsa.PublicKey`. -/
structure PublicKey where
  N : Nat
  E : Nat
  deriving DecidableEq, Repr

/-- The type `rsa.PrivateKey`. -/
structure PrivateKey where
  PublicKey : PublicKey
  D : Nat
  Primes : List Nat
  deriving DecidableEq, Repr

/-- The type `pem.Block`; `Typ` is its field `Type`. -/
structure PemBlock where
  Typ : String
  Headers : List (String × String)
  Bytes : Bytes
  deriving DecidableEq, Repr

/-- The deterministic standard-library routines the file calls. -/
structure Lib where
  /-- The text `pem.Encode` writes for a block. -/
  pemEncode : PemBlock → String
  /-- The first result of `pem.Decode`: the first block found, if any. -/
  pemDecode : String → Option PemBlock
  /-- Routine `x509.ParseCertificate`. -/
  x509ParseCertificate : Bytes → Except Error Certificate
  /-- Routine `x509.MarshalPKCS1PrivateKey`. -/
  x509MarshalPKCS1PrivateKey : PrivateKey → Bytes
  /-- Routine `x509.ParsePKCS1PrivateKey`. -/
  x509ParsePKCS1PrivateKey : Bytes → Except Error PrivateKey

/-- What the clock, the random source and the signing routine give to one call
of `createCertificate`. -/
structure CallEnv where
  /-- Result of `time.Now()`, in nanoseconds. -/
  now : Nat
  /-- Result of `rand.Int(rand.Reader, max)`. -/
  randInt : Nat → Except Error Nat
  /-- Result of `rsa.GenerateKey(rand.Reader, bits)`. -/
  rsaGenerateKey : Nat → Except Error PrivateKey
  /-- Result of `x509.CreateCertificate(rand.Reader, template, parent, pub, priv)`. -/
  x509CreateCertificate : Certificate → Certificate → PublicKey → PrivateKey → Except Error Bytes

/-! ## The file's constants and types -/

/-- Constant `ValidityDuration = time.Hour * 24 * 365 * 2`, in nanoseconds. -/
def ValidityDuration : Nat := 3600000000000 * 24 * 365 * 2

/-- Constant `PkiKeySize`: `createCertificate` passes it to `rsa.GenerateKey` as
the key size in bits (the comment of the source says bytes). -/
def PkiKeySize : Nat := 4096

/-- The type `PkiKeyCertPair`. -/
structure PkiKeyCertPair where
  CertificatePem : String
  PrivateKeyPem : String
  deriving DecidableEq, Repr

/-! ## PEM helpers -/

/-- Go `certificateToPem`. -/
def certificateToPem (lib : Lib) (derBytes : Bytes) : String :=
  lib.pemEncode { Typ := "CERTIFICATE", Headers := [], Bytes := derBytes }

/-- Go `privateKeyToPem`, for a key that is not `nil`. -/
def privateKeyToPem (lib : Lib) (privateKey : PrivateKey) : String :=
  lib.pemEncode
    { Typ := "RSA PRIVATE KEY", Headers := [], Bytes := lib.x509MarshalPKCS1PrivateKey privateKey }

/-- Go `pemToCertificate`. -/
def pemToCertificate (lib : Lib) (raw : String) : Option Certificate × Option Error :=
  match lib.pemDecode raw with
  | none => (none, some "The raw pem is not a valid PEM formatted block")
  | some cpb => goResult (lib.x509ParseCertificate cpb.Bytes)

/-- Go `pemToKey`. -/
def pemToKey (lib : Lib) (raw : String) : Option PrivateKey × Option Error :=
  match lib.pemDecode raw with
  | none => (none, some "The raw pem is not a valid PEM formatted block")
  | some kpb => goResult (lib.x509ParsePKCS1PrivateKey kpb.Bytes)

/-! ## `createCertificate` -/

/-- The arguments of one call of `createCertificate`. -/
structure CertRequest where
  commonName : String
  caCertificate : Option Certificate
  caPrivateKey : Option PrivateKey
  isEtcd : Bool
  isServer : Bool
  extraFQDNs : Slice String
  extraIPs : Slice IP
  organization : Slice String
  deriving DecidableEq, Repr

/-- The template `createCertificate` has built when it reaches the draw of the
serial number (lines 157 to 195); `now` is the result of `time.Now()`. -/
def certTemplate (now : Nat) (r : CertRequest) : Certificate :=
  let isCA := r.caCertificate.isNone
  let template : Certificate :=
    { Raw := []
      SerialNumber := none
      Subject := { CommonName := r.commonName, Organization := none }
      NotBefore := now
      NotAfter := now + ValidityDuration
      KeyUsage := KeyUsageKeyEncipherment ||| KeyUsageDigitalSignature
      ExtKeyUsage := none
      BasicConstraintsValid := true
      IsCA := false
      DNSNames := none
      IPAddresses := none }
  let template : Certificate :=
    if r.organization.isSome then
      { template with Subject := { template.Subject with Organization := r.organization } }
    else template
  if isCA then
    { template with KeyUsage := template.KeyUsage ||| KeyUsageCertSign, IsCA := isCA }
  else if r.isEtcd then
    if r.commonName = "etcdServer" then
      { template with
        IPAddresses := r.extraIPs
        ExtKeyUsage := goAppend template.ExtKeyUsage ExtKeyUsageServerAuth }
    else if r.commonName = "etcdClient" then
      { template with
        IPAddresses := r.extraIPs
        ExtKeyUsage := goAppend template.ExtKeyUsage ExtKeyUsageClientAuth }
    else
      { template with
        IPAddresses := r.extraIPs
        ExtKeyUsage :=
          goAppend (goAppend template.ExtKeyUsage ExtKeyUsageServerAuth) ExtKeyUsageClientAuth }
  else if r.isServer then
    { template with
      DNSNames := r.extraFQDNs
      IPAddresses := r.extraIPs
      ExtKeyUsage := goAppend template.ExtKeyUsage ExtKeyUsageServerAuth }
  else
    { template with ExtKeyUsage := goAppend template.ExtKeyUsage ExtKeyUsageClientAuth }

/-- The bound `snMax` of line 197: 1 shifted left by 128 bits. -/
def snMax : Nat := 1 <<< 128

/-- The issuer certificate and the signing key `createCertificate` chooses
(lines 205 to 213), given the finished template and the fresh key. -/
def signingInputs (r : CertRequest) (template : Certificate) (privateKey : Option PrivateKey) :
    Option PrivateKey × Option Certificate :=
  let isCA := r.caCertificate.isNone
  if !isCA then (r.caPrivateKey, r.caCertificate) else (privateKey, some template)

/-- Go `createCertificate`. The error of `rsa.GenerateKey` is discarded, so a
failed key generation leaves `privateKey` nil and `&privateKey.PublicKey`
panics; a nil signing key panics inside `x509.CreateCertificate`, which calls
its `Public` method. -/
def createCertificate (lib : Lib) (w : CallEnv) (r : CertRequest) :
    Outcome (Option Certificate × Option PrivateKey × Option Error) :=
  let template := certTemplate w.now r
  match w.randInt snMax with
  | .error err => .ret (none, none, some err)
  | .ok sn =>
    let template := { template with SerialNumber := some sn }
    let privateKey := (goResult (w.rsaGenerateKey PkiKeySize)).1
    let (privateKeyToUse, certificateToUse) := signingInputs r template privateKey
    match privateKey, certificateToUse, privateKeyToUse with
    | some privateKey, some certificateToUse, some privateKeyToUse =>
      match w.x509CreateCertificate template certificateToUse privateKey.PublicKey
          privateKeyToUse with
      | .error err => .ret (none, none, some err)
      | .ok certDerBytes =>
        match lib.x509ParseCertificate certDerBytes with
        | .error err => .ret (none, none, some err)
        | .ok certificate => .ret (some certificate, some privateKey, none)
    | _, _, _ => .panic

/-! ## `CreatePki` -/

/-- The goroutines `CreatePki` hands to the `errgroup`, by the slot they fill. -/
inductive Task where
  | apiServer
  | client
  | kubeConfig
  | etcdServer
  | etcdClient
  | etcdPeer (i : Nat)
  deriving DecidableEq, Repr

/-- The five goroutines started before the peer loop, in the order of their
`group.Go` calls. -/
def fixedTasks : List Task :=
  [.apiServer, .client, .kubeConfig, .etcdServer, .etcdClient]

/-- All goroutines started for `masterCount = n`, in the order of their
`group.Go` calls. -/
def launched (n : Nat) : List Task :=
  fixedTasks ++ (List.range n).map Task.etcdPeer

/-- The value `net.ParseIP("127.0.0.1").To4()`. -/
def localhostIP : IP := [127, 0, 0, 1]

/-- The value of `extraFQDNs` after lines 54 to 60. -/
def withServiceNames (extraFQDNs : Slice String) (clusterDomain : String) : Slice String :=
  let extraFQDNs := goAppend extraFQDNs "kubernetes"
  let extraFQDNs := goAppend extraFQDNs "kubernetes.default"
  let extraFQDNs := goAppend extraFQDNs "kubernetes.default.svc"
  let extraFQDNs := goAppend extraFQDNs ("kubernetes.default.svc." ++ clusterDomain)
  let extraFQDNs := goAppend extraFQDNs "kubernetes.kube-system"
  let extraFQDNs := goAppend extraFQDNs "kubernetes.kube-system.svc"
  let extraFQDNs := goAppend extraFQDNs ("kubernetes.kube-system.svc." ++ clusterDomain)
  extraFQDNs

/-- The arguments each goroutine passes to `createCertificate` (lines 91, 98,
105, 114, 123 and 135); `extraFQDNs` is the list after lines 54 to 60. -/
def taskRequest (extraFQDNs : Slice String) (extraIPs : Slice IP)
    (caCertificate : Option Certificate) (caPrivateKey : Option PrivateKey) : Task → CertRequest
  | .apiServer =>
    { commonName := "apiserver", caCertificate := caCertificate, caPrivateKey := caPrivateKey
      isEtcd := false, isServer := true
      extraFQDNs := extraFQDNs, extraIPs := extraIPs, organization := none }
  | .client =>
    { commonName := "client", caCertificate := caCertificate, caPrivateKey := caPrivateKey
      isEtcd := false, isServer := false
      extraFQDNs := none, extraIPs := none, organization := some ["system:masters"] }
  | .kubeConfig =>
    { commonName := "client", caCertificate := caCertificate, caPrivateKey := caPrivateKey
      isEtcd := false, isServer := false
      extraFQDNs := none, extraIPs := none, organization := some ["system:masters"] }
  | .etcdServer =>
    { commonName := "etcdserver", caCertificate := caCertificate, caPrivateKey := caPrivateKey
      isEtcd := true, isServer := true
      extraFQDNs := none, extraIPs := goAppend extraIPs localhostIP, organization := none }
  | .etcdClient =>
    { commonName := "etcdclient", caCertificate := caCertificate, caPrivateKey := caPrivateKey
      isEtcd := true, isServer := false
      extraFQDNs := none, extraIPs := goAppend extraIPs localhostIP, organization := none }
  | .etcdPeer _ =>
    { commonName := "etcdpeer", caCertificate := caCertificate, caPrivateKey := caPrivateKey
      isEtcd := true, isServer := false
      extraFQDNs := none, extraIPs := goAppend extraIPs localhostIP, organization := none }

/-- The variables the goroutines write, and the first error the `errgroup`
has recorded. -/
structure PkiState where
  apiServer : Option Certificate × Option PrivateKey
  client : Option Certificate × Option PrivateKey
  kubeConfig : Option Certificate × Option PrivateKey
  etcdServer : Option Certificate × Option PrivateKey
  etcdClient : Option Certificate × Option PrivateKey
  etcdPeerCertPairs : List (Option PkiKeyCertPair)
  groupErr : Option Error
  deriving DecidableEq, Repr

/-- The `errgroup` records the error a goroutine returns if it is the first. -/
def groupDone (s : PkiState) (err : Option Error) : PkiState :=
  match s.groupErr with
  | some _ => s
  | none => { s with groupErr := err }

/-- One goroutine runs to completion. A peer goroutine reads
`etcdPeerCertificate.Raw` before it looks at the error (line 136). -/
def runTask (lib : Lib) (env : Task → CallEnv) (req : Task → CertRequest) (t : Task)
    (s : PkiState) : Outcome PkiState :=
  (createCertificate lib (env t) (req t)).bind fun res =>
    match t with
    | .apiServer => .ret (groupDone { s with apiServer := (res.1, res.2.1) } res.2.2)
    | .client => .ret (groupDone { s with client := (res.1, res.2.1) } res.2.2)
    | .kubeConfig => .ret (groupDone { s with kubeConfig := (res.1, res.2.1) } res.2.2)
    | .etcdServer => .ret (groupDone { s with etcdServer := (res.1, res.2.1) } res.2.2)
    | .etcdClient => .ret (groupDone { s with etcdClient := (res.1, res.2.1) } res.2.2)
    | .etcdPeer i =>
      match res.1, res.2.1 with
      | some etcdPeerCertificate, some etcdPeerPrivateKey =>
        if i < s.etcdPeerCertPairs.length then
          .ret (groupDone
            { s with
              etcdPeerCertPairs := s.etcdPeerCertPairs.set i
                (some
                  { CertificatePem := certificateToPem lib etcdPeerCertificate.Raw
                    PrivateKeyPem := privateKeyToPem lib etcdPeerPrivateKey }) }
            res.2.2)
        else .panic
      | _, _ => .panic

/-- The goroutines complete in the order of the schedule; a panic in one of
them ends the program. -/
def runTasks (lib : Lib) (env : Task → CallEnv) (req : Task → CertRequest) :
    List Task → PkiState → Outcome PkiState
  | [], s => .ret s
  | t :: ts, s => (runTask lib env req t s).bind (runTasks lib env req ts)

/-- The seven results of `CreatePki`. -/
structure PkiResult where
  apiServer : Option PkiKeyCertPair
  client : Option PkiKeyCertPair
  kubeConfig : Option PkiKeyCertPair
  etcdServer : Option PkiKeyCertPair
  etcdClient : Option PkiKeyCertPair
  etcdPeers : Slice (Option PkiKeyCertPair)
  err : Option Error
  deriving DecidableEq, Repr

/-- The result `return nil, nil, nil, nil, nil, nil, err`. -/
def PkiResult.failed (err : Error) : PkiResult :=
  { apiServer := none, client := none, kubeConfig := none, etcdServer := none
    etcdClient := none, etcdPeers := none, err := some err }

/-- The pair `&PkiKeyCertPair{...}` built from a certificate and a key
variable; a nil certificate or key panics. -/
def pairOf (lib : Lib) (v : Option Certificate × Option PrivateKey) : Outcome PkiKeyCertPair :=
  match v.1, v.2 with
  | some certificate, some privateKey =>
    .ret
      { CertificatePem := certificateToPem lib certificate.Raw
        PrivateKeyPem := privateKeyToPem lib privateKey }
  | _, _ => .panic

/-- The final `return` of `CreatePki` (lines 145 to 151). -/
def assemble (lib : Lib) (s : PkiState) : Outcome PkiResult :=
  (pairOf lib s.apiServer).bind fun a =>
  (pairOf lib s.client).bind fun c =>
  (pairOf lib s.kubeConfig).bind fun k =>
  (pairOf lib s.etcdServer).bind fun es =>
  (pairOf lib s.etcdClient).bind fun ec =>
  .ret
    { apiServer := some a, client := some c, kubeConfig := some k, etcdServer := some es
      etcdClient := some ec, etcdPeers := some s.etcdPeerCertPairs, err := none }

/-- The variables when the goroutines are started: the declarations of lines
62 to 76 and `make([]*PkiKeyCertPair, masterCount)`. -/
def initialState (n : Nat) : PkiState :=
  { apiServer := (none, none), client := (none, none), kubeConfig := (none, none)
    etcdServer := (none, none), etcdClient := (none, none)
    etcdPeerCertPairs := List.replicate n none
    groupErr := none }

/-- A run of `CreatePki`: the goroutines it started, each with the arguments of
its `createCertificate` call, and what `CreatePki` did. -/
structure PkiRun where
  started : List (Task × CertRequest)
  outcome : Outcome PkiResult
  deriving DecidableEq, Repr

/-- Go `CreatePki`. `env t` is what the clock and the random source give to the
goroutine `t`; `sched` lists the started goroutines in their order of
completion. A nil `caPair` panics at line 81; a negative `masterCount` panics
in `make` at line 127, after the first five goroutines were started. -/
def CreatePki (lib : Lib) (env : Task → CallEnv) (sched : List Task)
    (extraFQDNs : Slice String) (extraIPs : Slice IP) (clusterDomain : String)
    (caPair : Option PkiKeyCertPair) (masterCount : Int) : PkiRun :=
  let extraFQDNs := withServiceNames extraFQDNs clusterDomain
  match caPair with
  | none => { started := [], outcome := .panic }
  | some caPair =>
    let ca := pemToCertificate lib caPair.CertificatePem
    match ca.2 with
    | some err => { started := [], outcome := .ret (PkiResult.failed err) }
    | none =>
      let key := pemToKey lib caPair.PrivateKeyPem
      match key.2 with
      | some err => { started := [], outcome := .ret (PkiResult.failed err) }
      | none =>
        let req := taskRequest extraFQDNs extraIPs ca.1 key.1
        if masterCount < 0 then
          { started := fixedTasks.map fun t => (t, req t), outcome := .panic }
        else
          { started := (launched masterCount.toNat).map fun t => (t, req t)
            outcome :=
              (runTasks lib env req sched (initialState masterCount.toNat)).bind fun s =>
                match s.groupErr with
                | some err => .ret (PkiResult.failed err)
                | none => assemble lib s }

/-! ## A small concrete library and environment

A stand-in for the standard library on which the definitions above can be
evaluated: PEM text is a tag character followed by one character per byte, a
certificate is parsed from any non-empty byte string, a key is one byte. -/

/-- Text of a block: `C` or `K`, then one character per byte. -/
def toyPemEncode (b : PemBlock) : String :=
  String.mk ((if b.Typ = "CERTIFICATE" then 'C' else 'K') :: b.Bytes.map fun x => Char.ofNat x.val)

/-- Inverse of `toyPemEncode`. -/
def toyPemDecode (raw : String) : Option PemBlock :=
  match raw.data with
  | 'C' :: rest =>
    some { Typ := "CERTIFICATE", Headers := [], Bytes := rest.map fun c => Fin.ofNat c.toNat }
  | 'K' :: rest =>
    some { Typ := "RSA PRIVATE KEY", Headers := [], Bytes := rest.map fun c => Fin.ofNat c.toNat }
  | _ => none

/-- A certificate is read off any non-empty byte string. -/
def toyParseCertificate (der : Bytes) : Except Error Certificate :=
  match der with
  | [] => .error "x509: malformed certificate"
  | b :: _ =>
    .ok
      { Raw := der, SerialNumber := some b.val, Subject := { CommonName := "", Organization := none }
        NotBefore := 0, NotAfter := 0, KeyUsage := 0, ExtKeyUsage := none
        BasicConstraintsValid := true, IsCA := false, DNSNames := none, IPAddresses := none }

/-- A key is written as the byte of its private exponent. -/
def toyMarshalKey (k : PrivateKey) : Bytes := [Fin.ofNat k.D]

/-- A key is read off a single byte. -/
def toyParseKey (der : Bytes) : Except Error PrivateKey :=
  match der with
  | [d] => .ok { PublicKey := { N := 0, E := 65537 }, D := d.val, Primes := [] }
  | _ => .error "x509: failed to parse private key"

/-- The stand-in library. -/
def toyLib : Lib :=
  { pemEncode := toyPemEncode
    pemDecode := toyPemDecode
    x509ParseCertificate := toyParseCertificate
    x509MarshalPKCS1PrivateKey := toyMarshalKey
    x509ParsePKCS1PrivateKey := toyParseKey }

/-- An environment in which every step succeeds: serial number `sn`, a key with
private exponent `d`, a signature whose bytes start with the serial number. -/
def goodEnv (sn d : Nat) : CallEnv :=
  { now := 0
    randInt := fun _ => .ok sn
    rsaGenerateKey := fun _ => .ok { PublicKey := { N := 0, E := 65537 }, D := d, Primes := [] }
    x509CreateCertificate := fun template _ _ _ =>
      .ok [Fin.ofNat (template.SerialNumber.getD 0), Fin.ofNat template.KeyUsage] }

/-- An environment in which the random source fails at the serial number. -/
def noSerialEnv : CallEnv :=
  { goodEnv 0 0 with randInt := fun _ => .error "rand: read failed" }

/-- A CA pair the stand-in library decodes. -/
def toyCaPair : PkiKeyCertPair :=
  { CertificatePem := "C\x01", PrivateKeyPem := "K\x02" }

/-- The certificate the stand-in library decodes from `toyCaPair`. -/
def toyCa : Certificate :=
  { Raw := [1], SerialNumber := some 1, Subject := { CommonName := "", Organization := none }
    NotBefore := 0, NotAfter := 0, KeyUsage := 0, ExtKeyUsage := none
    BasicConstraintsValid := true, IsCA := false, DNSNames := none, IPAddresses := none }

/-- The key the stand-in library decodes from `toyCaPair`. -/
def toyCaKey : PrivateKey :=
  { PublicKey := { N := 0, E := 65537 }, D := 2, Primes := [] }

/-- The serial number each goroutine draws in `allGoodEnv`. -/
def toySerial : Task → Nat
  | .apiServer => 10
  | .client => 11
  | .kubeConfig => 12
  | .etcdServer => 13
  | .etcdClient => 14
  | .etcdPeer i => 30 + i

/-- Every goroutine succeeds, each with its own serial number and key. -/
def allGoodEnv (t : Task) : CallEnv := goodEnv (toySerial t) (toySerial t + 100)

/-- The certificate the goroutine `t` gets in `allGoodEnv` on the stand-in
library, for a leaf request. -/
def toyCert (t : Task) : Certificate :=
  { toyCa with
    Raw := [Fin.ofNat (toySerial t), 5]
    SerialNumber := some (Fin.ofNat (toySerial t) : Fin 256).val }

/-- The key the goroutine `t` gets in `allGoodEnv`. -/
def toyKey (t : Task) : PrivateKey :=
  { PublicKey := { N := 0, E := 65537 }, D := toySerial t + 100, Primes := [] }

/-- An order of completion of the eight goroutines of a three-peer run that
differs from their order of start. -/
def shuffled3 : List Task :=
  [.etcdPeer 2, .client, .etcdPeer 0, .etcdServer, .apiServer, .etcdPeer 1, .etcdClient,
    .kubeConfig]

/-- Every goroutine succeeds except that of peer 0, whose serial number
cannot be drawn. -/
def peerZeroFailsEnv : Task → CallEnv
  | .etcdPeer 0 => noSerialEnv
  | t => allGoodEnv t

/-! ## Template shape -/

/-- C1, evaluated on the code: `CreatePki` asks for the common names
"etcdserver" and "etcdclient", `createCertificate` compares the name with
"etcdServer" and "etcdClient", so with a signer present both requests take the
last branch: the template of each carries server and client authentication,
not server only and not client only. -/
theorem etcd_server_and_client_templates_carry_both_usages (now : Nat)
    (extraFQDNs : Slice String) (extraIPs : Slice IP) (ca : Certificate)
    (key : Option PrivateKey) :
    (taskRequest extraFQDNs extraIPs (some ca) key .etcdServer).commonName = "etcdserver"
      ∧ (taskRequest extraFQDNs extraIPs (some ca) key .etcdClient).commonName = "etcdclient"
      ∧ (taskRequest extraFQDNs extraIPs (some ca) key .etcdServer).isEtcd = true
      ∧ (taskRequest extraFQDNs extraIPs (some ca) key .etcdClient).isEtcd = true
      ∧ (certTemplate now (taskRequest extraFQDNs extraIPs (some ca) key .etcdServer)).ExtKeyUsage
        = some [ExtKeyUsageServerAuth, ExtKeyUsageClientAuth]
      ∧ (certTemplate now (taskRequest extraFQDNs extraIPs (some ca) key .etcdClient)).ExtKeyUsage
        = some [ExtKeyUsageServerAuth, ExtKeyUsageClientAuth]
      ∧ (certTemplate now (taskRequest extraFQDNs extraIPs (some ca) key .etcdServer)).ExtKeyUsage
        ≠ some [ExtKeyUsageServerAuth]
      ∧ (certTemplate now (taskRequest extraFQDNs extraIPs (some ca) key .etcdClient)).ExtKeyUsage
        ≠ some [ExtKeyUsageClientAuth] := by
  simp [certTemplate, taskRequest, goAppend, Slice.toList, ExtKeyUsageServerAuth,
    ExtKeyUsageClientAuth]

/-- C3, evaluated on the code: when the serial number is drawn and
`rsa.GenerateKey` fails, `createCertificate` does not return an error: the
error of the key generation is discarded and the nil key is dereferenced, a
run-time panic, whatever the request. -/
theorem createCertificate_panics_when_key_generation_fails (lib : Lib) (now sn : Nat)
    (e : Error)
    (sign : Certificate → Certificate → PublicKey → PrivateKey → Except Error Bytes)
    (r : CertRequest) :
    createCertificate lib
        { now := now, randInt := fun _ => .ok sn, rsaGenerateKey := fun _ => .error e
          x509CreateCertificate := sign } r
      = .panic := by
  simp [createCertificate, goResult]

/-- When the serial number cannot be drawn, `createCertificate` returns that
error with no certificate and no key, whatever the key generation would do. -/
theorem createCertificate_returns_serial_error (lib : Lib) (now : Nat) (e : Error)
    (gen : Nat → Except Error PrivateKey)
    (sign : Certificate → Certificate → PublicKey → PrivateKey → Except Error Bytes)
    (r : CertRequest) :
    createCertificate lib
        { now := now, randInt := fun _ => .error e, rsaGenerateKey := gen
          x509CreateCertificate := sign } r
      = .ret (none, none, some e) := by
  simp [createCertificate]

/-- C7: with no signer certificate, whatever the flags, names, addresses,
organization and signer key passed, the template has key usage exactly key
encipherment, digital signature and certificate signing, is a certificate
authority with valid basic constraints, has no extended key usage, no DNS
names and no IP addresses; and once the serial number and the key are there,
`x509.CreateCertificate` is called with the template as issuer and the fresh
key as signing key. -/
theorem root_template_shape (lib : Lib) (now sn : Nat) (k : PrivateKey)
    (sign : Certificate → Certificate → PublicKey → PrivateKey → Except Error Bytes)
    (commonName : String) (caPrivateKey : Option PrivateKey) (isEtcd isServer : Bool)
    (extraFQDNs : Slice String) (extraIPs : Slice IP) (organization : Slice String) :
    let r : CertRequest :=
      { commonName := commonName, caCertificate := none, caPrivateKey := caPrivateKey
        isEtcd := isEtcd, isServer := isServer, extraFQDNs := extraFQDNs, extraIPs := extraIPs
        organization := organization }
    let t := certTemplate now r
    let t' := { t with SerialNumber := some sn }
    t.KeyUsage = (KeyUsageKeyEncipherment ||| KeyUsageDigitalSignature ||| KeyUsageCertSign)
      ∧ t.KeyUsage = 4 + 1 + 32
      ∧ t.IsCA = true ∧ t.BasicConstraintsValid = true
      ∧ t.ExtKeyUsage = none ∧ t.DNSNames = none ∧ t.IPAddresses = none
      ∧ signingInputs r t' (some k) = (some k, some t')
      ∧ createCertificate lib
          { now := now, randInt := fun _ => .ok sn, rsaGenerateKey := fun _ => .ok k
            x509CreateCertificate := sign } r
        = (match sign t' t' k.PublicKey k with
            | .error err => .ret (none, none, some err)
            | .ok der =>
              match lib.x509ParseCertificate der with
              | .error err => .ret (none, none, some err)
              | .ok certificate => .ret (some certificate, some k, none)) := by
  intro r t t'
  refine ⟨?_, ?_, ?_, ?_, ?_, ?_, ?_, ?_, ?_⟩
  · cases organization <;> simp [t, r, certTemplate]
  · cases organization <;>
      simp [t, r, certTemplate, KeyUsageKeyEncipherment, KeyUsageDigitalSignature,
        KeyUsageCertSign]
  · cases organization <;> simp [t, r, certTemplate]
  · cases organization <;> simp [t, r, certTemplate]
  · cases organization <;> simp [t, r, certTemplate]
  · cases organization <;> simp [t, r, certTemplate]
  · cases organization <;> simp [t, r, certTemplate]
  · simp [signingInputs, r]
  · simp [createCertificate, goResult, signingInputs, r, t', t]

/-- C8: with a signer present, (i) a request with `isEtcd = false` and
`isServer = true` gets the supplied DNS names, the supplied IP addresses and
server authentication only; (ii) a request with `isEtcd = false` and
`isServer = false` gets no DNS names and no IP addresses, whatever was
supplied, and client authentication only; (iii) the request named "etcdpeer"
with `isEtcd = true` gets the supplied IP addresses and server then client
authentication; in all three the key usage is exactly key encipherment and
digital signature and the template is not a certificate authority. -/
theorem leaf_template_shape (now : Nat) (ca : Certificate) (commonName : String)
    (caPrivateKey : Option PrivateKey) (isServer : Bool) (extraFQDNs : Slice String)
    (extraIPs : Slice IP) (organization : Slice String) :
    let server := certTemplate now
      { commonName := commonName, caCertificate := some ca, caPrivateKey := caPrivateKey
        isEtcd := false, isServer := true, extraFQDNs := extraFQDNs, extraIPs := extraIPs
        organization := organization }
    let client := certTemplate now
      { commonName := commonName, caCertificate := some ca, caPrivateKey := caPrivateKey
        isEtcd := false, isServer := false, extraFQDNs := extraFQDNs, extraIPs := extraIPs
        organization := organization }
    let peer := certTemplate now
      { commonName := "etcdpeer", caCertificate := some ca, caPrivateKey := caPrivateKey
        isEtcd := true, isServer := isServer, extraFQDNs := extraFQDNs, extraIPs := extraIPs
        organization := organization }
    (server.DNSNames = extraFQDNs ∧ server.IPAddresses = extraIPs
        ∧ server.ExtKeyUsage = some [ExtKeyUsageServerAuth])
      ∧ (client.DNSNames = none ∧ client.IPAddresses = none
        ∧ client.ExtKeyUsage = some [ExtKeyUsageClientAuth])
      ∧ (peer.IPAddresses = extraIPs
        ∧ peer.ExtKeyUsage = some [ExtKeyUsageServerAuth, ExtKeyUsageClientAuth])
      ∧ (server.KeyUsage = (KeyUsageKeyEncipherment ||| KeyUsageDigitalSignature)
        ∧ client.KeyUsage = (KeyUsageKeyEncipherment ||| KeyUsageDigitalSignature)
        ∧ peer.KeyUsage = (KeyUsageKeyEncipherment ||| KeyUsageDigitalSignature)
        ∧ (KeyUsageKeyEncipherment ||| KeyUsageDigitalSignature) = 4 + 1)
      ∧ (server.IsCA = false ∧ client.IsCA = false ∧ peer.IsCA = false) := by
  intro server client peer
  cases organization <;>
    simp [server, client, peer, certTemplate, goAppend, Slice.toList, KeyUsageKeyEncipherment,
      KeyUsageDigitalSignature]

/-! ## What `CreatePki` starts -/

/-- With a CA pair that decodes and `masterCount = n`, `CreatePki` starts the
`5 + n` goroutines, runs them and returns after `group.Wait`. -/
theorem CreatePki_decodable (lib : Lib) (env : Task → CallEnv) (sched : List Task)
    (extraFQDNs : Slice String) (extraIPs : Slice IP) (clusterDomain : String)
    (caPair : PkiKeyCertPair) (n : Nat) (ca : Option Certificate) (key : Option PrivateKey)
    (hca : pemToCertificate lib caPair.CertificatePem = (ca, none))
    (hkey : pemToKey lib caPair.PrivateKeyPem = (key, none)) :
    CreatePki lib env sched extraFQDNs extraIPs clusterDomain (some caPair) (n : Int)
      = { started := (launched n).map fun t =>
            (t, taskRequest (withServiceNames extraFQDNs clusterDomain) extraIPs ca key t)
          outcome :=
            (runTasks lib env
                (taskRequest (withServiceNames extraFQDNs clusterDomain) extraIPs ca key) sched
                (initialState n)).bind fun s =>
              match s.groupErr with
              | some err => .ret (PkiResult.failed err)
              | none => assemble lib s } := by
  have hn : ¬ ((n : Int) < 0) := by omega
  simp [CreatePki, hca, hkey, hn, initialState]

/-- With a CA pair that decodes and `masterCount = n`, `CreatePki` starts the
`5 + n` goroutines, each with the request `taskRequest` gives. -/
theorem CreatePki_started (lib : Lib) (env : Task → CallEnv) (sched : List Task)
    (extraFQDNs : Slice String) (extraIPs : Slice IP) (clusterDomain : String)
    (caPair : PkiKeyCertPair) (n : Nat) (ca : Option Certificate) (key : Option PrivateKey)
    (hca : pemToCertificate lib caPair.CertificatePem = (ca, none))
    (hkey : pemToKey lib caPair.PrivateKeyPem = (key, none)) :
    (CreatePki lib env sched extraFQDNs extraIPs clusterDomain (some caPair) (n : Int)).started
      = (launched n).map fun t =>
          (t, taskRequest (withServiceNames extraFQDNs clusterDomain) extraIPs ca key t) := by
  rw [CreatePki_decodable lib env sched extraFQDNs extraIPs clusterDomain caPair n ca key hca hkey]

/-- The members of the started list are the launched tasks with their requests. -/
theorem mem_started_iff (req : Task → CertRequest) (n : Nat) (t : Task) (r : CertRequest) :
    (t, r) ∈ (launched n).map (fun t => (t, req t)) ↔ t ∈ launched n ∧ r = req t := by
  simp only [List.mem_map, Prod.mk.injEq]
  constructor
  · rintro ⟨a, ha, rfl, rfl⟩
    exact ⟨ha, rfl⟩
  · rintro ⟨ht, rfl⟩
    exact ⟨t, ht, rfl, rfl⟩

/-- C4: when the CA certificate text holds no PEM block or its block does not
parse as a certificate, or the CA key text holds no PEM block or its block
does not parse as a PKCS#1 key, `CreatePki` starts no goroutine and returns
nil for all six results together with the error of the decoder that failed,
the certificate decoder first. -/
theorem CreatePki_fails_fast (lib : Lib) (env : Task → CallEnv) (sched : List Task)
    (extraFQDNs : Slice String) (extraIPs : Slice IP) (clusterDomain : String)
    (caPair : PkiKeyCertPair) (masterCount : Int)
    (h : (lib.pemDecode caPair.CertificatePem = none
          ∨ ∃ b e, lib.pemDecode caPair.CertificatePem = some b
            ∧ lib.x509ParseCertificate b.Bytes = .error e)
        ∨ (lib.pemDecode caPair.PrivateKeyPem = none
          ∨ ∃ b e, lib.pemDecode caPair.PrivateKeyPem = some b
            ∧ lib.x509ParsePKCS1PrivateKey b.Bytes = .error e)) :
    ∃ e : Error,
      ((pemToCertificate lib caPair.CertificatePem).2 = some e
          ∨ ((pemToCertificate lib caPair.CertificatePem).2 = none
            ∧ (pemToKey lib caPair.PrivateKeyPem).2 = some e))
        ∧ CreatePki lib env sched extraFQDNs extraIPs clusterDomain (some caPair) masterCount
          = { started := []
              outcome := .ret
                { apiServer := none, client := none, kubeConfig := none, etcdServer := none
                  etcdClient := none, etcdPeers := none, err := some e } } := by
  cases hc : (pemToCertificate lib caPair.CertificatePem).2 with
  | some e =>
    exact ⟨e, Or.inl rfl, by simp [CreatePki, hc, PkiResult.failed]⟩
  | none =>
    cases hk : (pemToKey lib caPair.PrivateKeyPem).2 with
    | some e =>
      exact ⟨e, Or.inr ⟨rfl, rfl⟩, by simp [CreatePki, hc, hk, PkiResult.failed]⟩
    | none =>
      exfalso
      rcases h with h | h
      · rcases h with h | ⟨b, e, hb, he⟩
        · simp [pemToCertificate, h] at hc
        · simp [pemToCertificate, hb, he, goResult] at hc
      · rcases h with h | ⟨b, e, hb, he⟩
        · simp [pemToKey, h] at hk
        · simp [pemToKey, hb, he, goResult] at hk

/-- Witness for C4: a CA certificate text with no PEM
block, on the small library. -/
theorem CreatePki_fails_fast_witness :
    toyLib.pemDecode "" = none
      ∧ ∃ e : Error,
        ((pemToCertificate toyLib "").2 = some e
            ∨ ((pemToCertificate toyLib "").2 = none ∧ (pemToKey toyLib "K\x02").2 = some e))
          ∧ CreatePki toyLib allGoodEnv (launched 2) none none "cluster.local"
              (some { CertificatePem := "", PrivateKeyPem := "K\x02" }) 2
            = { started := []
                outcome := .ret
                  { apiServer := none, client := none, kubeConfig := none, etcdServer := none
                    etcdClient := none, etcdPeers := none, err := some e } } :=
  ⟨rfl, CreatePki_fails_fast toyLib allGoodEnv (launched 2) none none "cluster.local"
    { CertificatePem := "", PrivateKeyPem := "K\x02" } 2 (Or.inl (Or.inl rfl))⟩

/-- C6: with a CA pair that decodes, the goroutine of the API-server
certificate is started, and the DNS name list it passes to `createCertificate`
is the caller's list followed, in order, by the seven service names; the
template takes that list as its DNS names; the list contains the four names
of the default namespace. -/
theorem apiserver_dns_names (lib : Lib) (env : Task → CallEnv) (sched : List Task)
    (L : Slice String) (extraIPs : Slice IP) (D : String) (caPair : PkiKeyCertPair) (N : Nat)
    (ca : Certificate) (key : Option PrivateKey) (now : Nat)
    (hca : pemToCertificate lib caPair.CertificatePem = (some ca, none))
    (hkey : pemToKey lib caPair.PrivateKeyPem = (key, none)) :
    (∃ r, (Task.apiServer, r)
        ∈ (CreatePki lib env sched L extraIPs D (some caPair) (N : Int)).started)
      ∧ ∀ r, (Task.apiServer, r)
          ∈ (CreatePki lib env sched L extraIPs D (some caPair) (N : Int)).started →
        r.extraFQDNs = some (L.toList ++
            ["kubernetes", "kubernetes.default", "kubernetes.default.svc",
              "kubernetes.default.svc." ++ D, "kubernetes.kube-system",
              "kubernetes.kube-system.svc", "kubernetes.kube-system.svc." ++ D])
          ∧ (certTemplate now r).DNSNames = r.extraFQDNs
          ∧ ∀ name ∈ ["kubernetes", "kubernetes.default", "kubernetes.default.svc",
                "kubernetes.default.svc." ++ D],
              name ∈ r.extraFQDNs.toList := by
  rw [CreatePki_started lib env sched L extraIPs D caPair N (some ca) key hca hkey]
  have hreq : (taskRequest (withServiceNames L D) extraIPs (some ca) key .apiServer).extraFQDNs
      = some (L.toList ++
            ["kubernetes", "kubernetes.default", "kubernetes.default.svc",
              "kubernetes.default.svc." ++ D, "kubernetes.kube-system",
              "kubernetes.kube-system.svc", "kubernetes.kube-system.svc." ++ D]) := by
    simp [taskRequest, withServiceNames, goAppend, Slice.toList]
  constructor
  · exact ⟨_, (mem_started_iff _ N _ _).2 ⟨by simp [launched, fixedTasks], rfl⟩⟩
  · intro r hr
    obtain ⟨-, rfl⟩ := (mem_started_iff _ N _ _).1 hr
    refine ⟨hreq, ?_, ?_⟩
    · simp [certTemplate, taskRequest]
    · rw [hreq]
      intro name hname
      simp only [Slice.toList, Option.getD_some, List.mem_append]
      right
      simp only [List.mem_cons, List.mem_singleton, List.not_mem_nil, or_false] at hname ⊢
      tauto

/-- Witness for C6: an empty caller list and the suffix
"cluster.local", on the small library; the API-server request carries
"kubernetes.default.svc.cluster.local". -/
theorem apiserver_dns_names_witness :
    pemToCertificate toyLib toyCaPair.CertificatePem = (some toyCa, none)
      ∧ pemToKey toyLib toyCaPair.PrivateKeyPem = (some toyCaKey, none)
      ∧ ∃ r, (Task.apiServer, r)
          ∈ (CreatePki toyLib allGoodEnv (launched 3) (some []) (some []) "cluster.local"
              (some toyCaPair) 3).started
        ∧ "kubernetes.default.svc.cluster.local" ∈ r.extraFQDNs.toList :=
  ⟨rfl, rfl,
    match apiserver_dns_names toyLib allGoodEnv (launched 3) (some []) (some []) "cluster.local"
        toyCaPair 3 toyCa (some toyCaKey) 0 rfl rfl with
    | ⟨⟨r, hr⟩, hall⟩ => ⟨r, hr, (hall r hr).2.2 _ (by simp)⟩⟩

/-- C10: with a CA pair that decodes and `masterCount = N`, the goroutines
started are the five fixed ones and one per peer index below `N`; the IP list
the etcd server, the etcd client and every etcd peer goroutine passes to
`createCertificate` is the caller's list followed by the single four-byte
address 127.0.0.1, and the template takes it as its IP addresses; the
API-server goroutine passes the caller's list unchanged; the two client
goroutines pass nil, and their template has no IP addresses. -/
theorem localhost_inclusive_ip_lists (lib : Lib) (env : Task → CallEnv) (sched : List Task)
    (extraFQDNs : Slice String) (A : Slice IP) (D : String) (caPair : PkiKeyCertPair) (N : Nat)
    (ca : Certificate) (key : Option PrivateKey) (now : Nat)
    (hca : pemToCertificate lib caPair.CertificatePem = (some ca, none))
    (hkey : pemToKey lib caPair.PrivateKeyPem = (key, none)) :
    localhostIP = [127, 0, 0, 1]
      ∧ (CreatePki lib env sched extraFQDNs A D (some caPair) (N : Int)).started.map Prod.fst
        = [Task.apiServer, .client, .kubeConfig, .etcdServer, .etcdClient]
          ++ (List.range N).map Task.etcdPeer
      ∧ ∀ t r, (t, r)
          ∈ (CreatePki lib env sched extraFQDNs A D (some caPair) (N : Int)).started →
        ((t = .etcdServer ∨ t = .etcdClient ∨ ∃ i, t = .etcdPeer i) →
            r.extraIPs = some (A.toList ++ [localhostIP])
              ∧ r.extraIPs.toList.length = A.toList.length + 1
              ∧ (certTemplate now r).IPAddresses = some (A.toList ++ [localhostIP]))
          ∧ (t = .apiServer →
            r.extraIPs = A ∧ (certTemplate now r).IPAddresses = A)
          ∧ (t = .client ∨ t = .kubeConfig →
            r.extraIPs = none ∧ (certTemplate now r).IPAddresses = none) := by
  rw [CreatePki_started lib env sched extraFQDNs A D caPair N (some ca) key hca hkey]
  refine ⟨rfl, ?_, ?_⟩
  · simp [launched, fixedTasks, List.map_map, Function.comp_def]
  · intro t r hr
    obtain ⟨-, rfl⟩ := (mem_started_iff _ N _ _).1 hr
    refine ⟨?_, ?_, ?_⟩
    · rintro (rfl | rfl | ⟨i, rfl⟩) <;>
        simp [taskRequest, certTemplate, goAppend, Slice.toList]
    · rintro rfl
      simp [taskRequest, certTemplate]
    · rintro (rfl | rfl) <;> simp [taskRequest, certTemplate, goAppend, Slice.toList]

/-- Witness for C10: one caller address and two
peers, on the small library. -/
theorem localhost_inclusive_ip_lists_witness :
    pemToCertificate toyLib toyCaPair.CertificatePem = (some toyCa, none)
      ∧ pemToKey toyLib toyCaPair.PrivateKeyPem = (some toyCaKey, none)
      ∧ (CreatePki toyLib allGoodEnv (launched 2) none (some [[10, 0, 0, 4]]) "cluster.local"
          (some toyCaPair) 2).started.map Prod.fst
        = [Task.apiServer, .client, .kubeConfig, .etcdServer, .etcdClient]
          ++ (List.range 2).map Task.etcdPeer :=
  ⟨rfl, rfl,
    (localhost_inclusive_ip_lists toyLib allGoodEnv (launched 2) none (some [[10, 0, 0, 4]])
      "cluster.local" toyCaPair 2 toyCa (some toyCaKey) 0 rfl rfl).2.1⟩

/-! ## The roster of `CreatePki` -/

/-- A peer task is launched exactly when its index is below the count. -/
theorem etcdPeer_mem_launched (n i : Nat) : Task.etcdPeer i ∈ launched n ↔ i < n := by
  simp [launched, fixedTasks]

/-- When every goroutine of the schedule gets a certificate and a key, the
goroutines all complete, no error is recorded, and each has written its own
variable or its own slot of the peer slice, whatever the order. -/
theorem runTasks_ok (lib : Lib) (env : Task → CallEnv) (req : Task → CertRequest)
    (cert : Task → Certificate) (pkey : Task → PrivateKey) (l : List Task) :
    ∀ s : PkiState,
      (∀ t ∈ l, createCertificate lib (env t) (req t)
        = .ret (some (cert t), some (pkey t), none)) →
      s.groupErr = none →
      (∀ i, Task.etcdPeer i ∈ l → i < s.etcdPeerCertPairs.length) →
      ∃ s', runTasks lib env req l s = .ret s' ∧ s'.groupErr = none
        ∧ s'.etcdPeerCertPairs.length = s.etcdPeerCertPairs.length
        ∧ (∀ i, s'.etcdPeerCertPairs[i]? =
            if Task.etcdPeer i ∈ l then
              some (some
                { CertificatePem := certificateToPem lib (cert (.etcdPeer i)).Raw
                  PrivateKeyPem := privateKeyToPem lib (pkey (.etcdPeer i)) })
            else s.etcdPeerCertPairs[i]?)
        ∧ s'.apiServer = (if Task.apiServer ∈ l then
            (some (cert .apiServer), some (pkey .apiServer)) else s.apiServer)
        ∧ s'.client = (if Task.client ∈ l then
            (some (cert .client), some (pkey .client)) else s.client)
        ∧ s'.kubeConfig = (if Task.kubeConfig ∈ l then
            (some (cert .kubeConfig), some (pkey .kubeConfig)) else s.kubeConfig)
        ∧ s'.etcdServer = (if Task.etcdServer ∈ l then
            (some (cert .etcdServer), some (pkey .etcdServer)) else s.etcdServer)
        ∧ s'.etcdClient = (if Task.etcdClient ∈ l then
            (some (cert .etcdClient), some (pkey .etcdClient)) else s.etcdClient) := by
  induction l with
  | nil =>
    intro s _ hs _
    exact ⟨s, rfl, hs, rfl, by simp⟩
  | cons t ts ih =>
    intro s hok hs hlen
    have hts : ∀ t' ∈ ts, createCertificate lib (env t') (req t')
        = .ret (some (cert t'), some (pkey t'), none) :=
      fun t' ht' => hok t' (List.mem_cons_of_mem _ ht')
    have ht := hok t (List.mem_cons_self _ _)
    cases t with
    | apiServer =>
      obtain ⟨s', hrun, herr, hl, hp, ha, hc, hk, hes, hec⟩ :=
        ih { s with apiServer := (some (cert .apiServer), some (pkey .apiServer)) } hts hs
          (fun i hi => hlen i (List.mem_cons_of_mem _ hi))
      refine ⟨s', ?_, herr, hl, ?_, ?_, ?_, ?_, ?_, ?_⟩
      · simpa [runTasks, runTask, ht, Outcome.bind, groupDone, hs] using hrun
      · intro i; simp [hp i]
      · simp [ha]
      · simp [hc]
      · simp [hk]
      · simp [hes]
      · simp [hec]
    | client =>
      obtain ⟨s', hrun, herr, hl, hp, ha, hc, hk, hes, hec⟩ :=
        ih { s with client := (some (cert .client), some (pkey .client)) } hts hs
          (fun i hi => hlen i (List.mem_cons_of_mem _ hi))
      refine ⟨s', ?_, herr, hl, ?_, ?_, ?_, ?_, ?_, ?_⟩
      · simpa [runTasks, runTask, ht, Outcome.bind, groupDone, hs] using hrun
      · intro i; simp [hp i]
      · simp [ha]
      · simp [hc]
      · simp [hk]
      · simp [hes]
      · simp [hec]
    | kubeConfig =>
      obtain ⟨s', hrun, herr, hl, hp, ha, hc, hk, hes, hec⟩ :=
        ih { s with kubeConfig := (some (cert .kubeConfig), some (pkey .kubeConfig)) } hts hs
          (fun i hi => hlen i (List.mem_cons_of_mem _ hi))
      refine ⟨s', ?_, herr, hl, ?_, ?_, ?_, ?_, ?_, ?_⟩
      · simpa [runTasks, runTask, ht, Outcome.bind, groupDone, hs] using hrun
      · intro i; simp [hp i]
      · simp [ha]
      · simp [hc]
      · simp [hk]
      · simp [hes]
      · simp [hec]
    | etcdServer =>
      obtain ⟨s', hrun, herr, hl, hp, ha, hc, hk, hes, hec⟩ :=
        ih { s with etcdServer := (some (cert .etcdServer), some (pkey .etcdServer)) } hts hs
          (fun i hi => hlen i (List.mem_cons_of_mem _ hi))
      refine ⟨s', ?_, herr, hl, ?_, ?_, ?_, ?_, ?_, ?_⟩
      · simpa [runTasks, runTask, ht, Outcome.bind, groupDone, hs] using hrun
      · intro i; simp [hp i]
      · simp [ha]
      · simp [hc]
      · simp [hk]
      · simp [hes]
      · simp [hec]
    | etcdClient =>
      obtain ⟨s', hrun, herr, hl, hp, ha, hc, hk, hes, hec⟩ :=
        ih { s with etcdClient := (some (cert .etcdClient), some (pkey .etcdClient)) } hts hs
          (fun i hi => hlen i (List.mem_cons_of_mem _ hi))
      refine ⟨s', ?_, herr, hl, ?_, ?_, ?_, ?_, ?_, ?_⟩
      · simpa [runTasks, runTask, ht, Outcome.bind, groupDone, hs] using hrun
      · intro i; simp [hp i]
      · simp [ha]
      · simp [hc]
      · simp [hk]
      · simp [hes]
      · simp [hec]
    | etcdPeer j =>
      have hj : j < s.etcdPeerCertPairs.length := hlen j (List.mem_cons_self _ _)
      obtain ⟨s', hrun, herr, hl, hp, ha, hc, hk, hes, hec⟩ :=
        ih { s with
              etcdPeerCertPairs := s.etcdPeerCertPairs.set j
                (some
                  { CertificatePem := certificateToPem lib (cert (.etcdPeer j)).Raw
                    PrivateKeyPem := privateKeyToPem lib (pkey (.etcdPeer j)) }) } hts hs
          (fun i hi => by
            simpa using hlen i (List.mem_cons_of_mem _ hi))
      refine ⟨s', ?_, herr, ?_, ?_, ?_, ?_, ?_, ?_, ?_⟩
      · simpa [runTasks, runTask, ht, Outcome.bind, groupDone, hs, hj] using hrun
      · simpa using hl
      · intro i
        rw [hp i]
        by_cases hij : j = i
        · subst hij
          simp [List.getElem?_set, hj]
        · have hne : ¬ (i = j) := fun h => hij h.symm
          simp [List.getElem?_set, hij, hne]
      · simp [ha]
      · simp [hc]
      · simp [hk]
      · simp [hes]
      · simp [hec]

/-- C5: with a CA pair that decodes, `masterCount = N`, a schedule that is any
order of completion of the `5 + N` started goroutines, and every started
goroutine getting a certificate and a key from `createCertificate`, `CreatePki`
returns without an error a peer slice of length `N` whose element at each
index `i` below `N` is the pair built from the certificate and key of the
goroutine of peer `i`. -/
theorem peer_roster_in_slot_order (lib : Lib) (env : Task → CallEnv) (sched : List Task)
    (extraFQDNs : Slice String) (extraIPs : Slice IP) (D : String) (caPair : PkiKeyCertPair)
    (N : Nat) (ca : Option Certificate) (key : Option PrivateKey) (cert : Task → Certificate)
    (pkey : Task → PrivateKey)
    (hca : pemToCertificate lib caPair.CertificatePem = (ca, none))
    (hkey : pemToKey lib caPair.PrivateKeyPem = (key, none))
    (hsched : sched.Perm (launched N))
    (hok : ∀ p ∈ (CreatePki lib env sched extraFQDNs extraIPs D (some caPair) (N : Int)).started,
      createCertificate lib (env p.1) p.2 = .ret (some (cert p.1), some (pkey p.1), none)) :
    ∃ res peers,
      (CreatePki lib env sched extraFQDNs extraIPs D (some caPair) (N : Int)).outcome = .ret res
        ∧ res.err = none ∧ res.etcdPeers = some peers ∧ peers.length = N
        ∧ ∀ i, i < N → peers[i]? = some (some
            { CertificatePem := certificateToPem lib (cert (.etcdPeer i)).Raw
              PrivateKeyPem := privateKeyToPem lib (pkey (.etcdPeer i)) }) := by
  rw [CreatePki_decodable lib env sched extraFQDNs extraIPs D caPair N ca key hca hkey] at hok ⊢
  simp only at hok ⊢
  have hmem : ∀ t, t ∈ sched ↔ t ∈ launched N := fun t => hsched.mem_iff
  have hok' : ∀ t ∈ sched, createCertificate lib (env t)
      (taskRequest (withServiceNames extraFQDNs D) extraIPs ca key t)
        = .ret (some (cert t), some (pkey t), none) := by
    intro t ht
    exact hok (t, _) (List.mem_map.2 ⟨t, (hmem t).1 ht, rfl⟩)
  obtain ⟨s', hrun, herr, hl, hp, ha, hc, hk, hes, hec⟩ :=
    runTasks_ok lib env _ cert pkey sched (initialState N) hok' rfl
      (fun i hi => by
        simpa [initialState] using (etcdPeer_mem_launched N i).1 ((hmem _).1 hi))
  have h1 : Task.apiServer ∈ sched := (hmem _).2 (by simp [launched, fixedTasks])
  have h2 : Task.client ∈ sched := (hmem _).2 (by simp [launched, fixedTasks])
  have h3 : Task.kubeConfig ∈ sched := (hmem _).2 (by simp [launched, fixedTasks])
  have h4 : Task.etcdServer ∈ sched := (hmem _).2 (by simp [launched, fixedTasks])
  have h5 : Task.etcdClient ∈ sched := (hmem _).2 (by simp [launched, fixedTasks])
  rw [if_pos h1] at ha
  rw [if_pos h2] at hc
  rw [if_pos h3] at hk
  rw [if_pos h4] at hes
  rw [if_pos h5] at hec
  refine ⟨{ apiServer := some
              { CertificatePem := certificateToPem lib (cert .apiServer).Raw
                PrivateKeyPem := privateKeyToPem lib (pkey .apiServer) }
            client := some
              { CertificatePem := certificateToPem lib (cert .client).Raw
                PrivateKeyPem := privateKeyToPem lib (pkey .client) }
            kubeConfig := some
              { CertificatePem := certificateToPem lib (cert .kubeConfig).Raw
                PrivateKeyPem := privateKeyToPem lib (pkey .kubeConfig) }
            etcdServer := some
              { CertificatePem := certificateToPem lib (cert .etcdServer).Raw
                PrivateKeyPem := privateKeyToPem lib (pkey .etcdServer) }
            etcdClient := some
              { CertificatePem := certificateToPem lib (cert .etcdClient).Raw
                PrivateKeyPem := privateKeyToPem lib (pkey .etcdClient) }
            etcdPeers := some s'.etcdPeerCertPairs
            err := none }, s'.etcdPeerCertPairs, ?_, rfl, rfl, ?_, ?_⟩
  · simp only [hrun, Outcome.bind, herr, assemble, pairOf, ha, hc, hk, hes, hec]
  · simpa [initialState] using hl
  · intro i hi
    rw [hp i, if_pos ((hmem _).2 ((etcdPeer_mem_launched N i).2 hi))]

/-- Witness for C5: three peers on the small library,
the goroutines completing in the order `shuffled3`. -/
theorem peer_roster_in_slot_order_witness :
    shuffled3.Perm (launched 3)
      ∧ ∃ res peers,
        (CreatePki toyLib allGoodEnv shuffled3 none none "cluster.local" (some toyCaPair)
            3).outcome = .ret res
          ∧ res.err = none ∧ res.etcdPeers = some peers ∧ peers.length = 3
          ∧ ∀ i, i < 3 → peers[i]? = some (some
              { CertificatePem := certificateToPem toyLib (toyCert (.etcdPeer i)).Raw
                PrivateKeyPem := privateKeyToPem toyLib (toyKey (.etcdPeer i)) }) :=
  ⟨by decide,
    peer_roster_in_slot_order toyLib allGoodEnv shuffled3 none none "cluster.local" toyCaPair 3
      (some toyCa) (some toyCaKey) toyCert toyKey rfl rfl (by decide) (by decide)⟩

/-! ## Failure of an issuance -/

/-- A goroutine that panics, whatever the variables hold, ends the run,
wherever it stands in the schedule. -/
theorem runTasks_panic (lib : Lib) (env : Task → CallEnv) (req : Task → CertRequest)
    (t : Task) (ht : ∀ s, runTask lib env req t s = .panic) (l : List Task) :
    ∀ s, t ∈ l → runTasks lib env req l s = .panic := by
  induction l with
  | nil => intro s h; simp at h
  | cons u us ih =>
    intro s hmem
    cases hu : runTask lib env req u s with
    | panic => simp [runTasks, hu, Outcome.bind]
    | ret s1 =>
      have hne : t ≠ u := by
        rintro rfl
        rw [ht s] at hu
        cases hu
      have hin : t ∈ us := by
        rcases List.mem_cons.1 hmem with h | h
        · exact absurd h hne
        · exact h
      simp [runTasks, hu, Outcome.bind, ih s1 hin]

/-- C2, evaluated on the code: with a CA pair that decodes, when
`createCertificate` returns an error to the goroutine of a peer, that
goroutine reads `etcdPeerCertificate.Raw` of the nil certificate before it
returns the error, so `CreatePki` ends in a run-time panic instead of
returning the error, in every order of completion. -/
theorem CreatePki_panics_when_peer_issuance_fails (lib : Lib) (env : Task → CallEnv)
    (sched : List Task) (extraFQDNs : Slice String) (extraIPs : Slice IP) (D : String)
    (caPair : PkiKeyCertPair) (N : Nat) (ca : Option Certificate) (key : Option PrivateKey)
    (i : Nat) (e : Error)
    (hca : pemToCertificate lib caPair.CertificatePem = (ca, none))
    (hkey : pemToKey lib caPair.PrivateKeyPem = (key, none))
    (hsched : sched.Perm (launched N)) (hi : i < N)
    (hfail : createCertificate lib (env (.etcdPeer i))
        (taskRequest (withServiceNames extraFQDNs D) extraIPs ca key (.etcdPeer i))
      = .ret (none, none, some e)) :
    (CreatePki lib env sched extraFQDNs extraIPs D (some caPair) (N : Int)).outcome
      = .panic := by
  rw [CreatePki_decodable lib env sched extraFQDNs extraIPs D caPair N ca key hca hkey]
  have hmem : Task.etcdPeer i ∈ sched := hsched.mem_iff.2 ((etcdPeer_mem_launched N i).2 hi)
  have hp := runTasks_panic lib env
    (taskRequest (withServiceNames extraFQDNs D) extraIPs ca key) (.etcdPeer i)
    (fun s => by simp [runTask, hfail, Outcome.bind]) sched (initialState N) hmem
  simp [hp, Outcome.bind]

/-- Witness for C2: one peer, whose
serial number cannot be drawn, on the small library. -/
theorem CreatePki_panics_when_peer_issuance_fails_witness :
    createCertificate toyLib (peerZeroFailsEnv (.etcdPeer 0))
        (taskRequest (withServiceNames none "cluster.local") none (some toyCa) (some toyCaKey)
          (.etcdPeer 0))
      = .ret (none, none, some "rand: read failed")
      ∧ (CreatePki toyLib peerZeroFailsEnv (launched 1) none none "cluster.local"
          (some toyCaPair) 1).outcome = .panic :=
  ⟨rfl,
    CreatePki_panics_when_peer_issuance_fails toyLib peerZeroFailsEnv (launched 1) none none
      "cluster.local" toyCaPair 1 (some toyCa) (some toyCaKey) 0 "rand: read failed" rfl rfl
      (List.Perm.refl _) (by decide) rfl⟩

end Pki
